import Mathlib

/-!
Verification development for the `anomaly-detection-gnn` repository.

The file shallowly embeds `src/main.py` (the orchestration script
`node_classification` plus its `__main__` argument surface) and the
interfaces of its collaborators.  Modules of the repository that are not
under `src/` (`utils.nc_model`, `utils.dataset`, `pre_processing`,
`utils.util`) are modelled from the specification, each marked
`Modelled from the spec:` in its doc comment.

Conventions of the embedding:
* Python integers are `Int`, booleans are `Bool`, floats appearing only as
  exact decimal constants or as ratios of integer counts are `ℚ`.
* Effects (filesystem, dataset construction, torch training) are supplied by
  an explicit `Env` of deterministic functions; the randomness consumed by the
  shuffled test-partition loader is an explicit permutation input (`RunRng`).
* A run of `node_classification` returns an `Outcome` record collecting every
  observable of the script: constructed dataset arguments, logged lines, the
  loader configurations, the model configuration, the loss weights, the
  checkpoint decision, the prediction vectors, the raised error (if any) and
  the plot calls performed.
-/

set_option linter.unusedVariables false

namespace AnomalyGNN

/-! ### Decimal rendering of integers (Python `str` on `int`) -/

/-- Decimal digit character; `digitChar n` is the digit of `n` for `n < 10`. -/
def digitChar : Nat → Char
  | 0 => '0' | 1 => '1' | 2 => '2' | 3 => '3' | 4 => '4'
  | 5 => '5' | 6 => '6' | 7 => '7' | 8 => '8' | _ => '9'

/-- Numeric value of a decimal digit character (left inverse of `digitChar`). -/
def charVal : Char → Nat
  | '0' => 0 | '1' => 1 | '2' => 2 | '3' => 3 | '4' => 4
  | '5' => 5 | '6' => 6 | '7' => 7 | '8' => 8 | _ => 9

/-- Decimal rendering of a natural number, exactly as Python's `str` renders a
non-negative `int`: most significant digit first, no leading zeros. -/
def decRepr (n : Nat) : List Char :=
  if h : n < 10 then [digitChar n]
  else decRepr (n / 10) ++ [digitChar (n % 10)]
termination_by n
decreasing_by exact Nat.div_lt_self (by omega) (by omega)

/-- Decoding of a digit string, used to prove `decRepr` injective. -/
def decVal (l : List Char) : Nat :=
  l.foldl (fun a c => 10 * a + charVal c) 0

/-- Decimal rendering of an integer, as Python's `str` renders an `int`:
a leading `'-'` for negative values, digits otherwise. -/
def intRepr (n : Int) : List Char :=
  if n < 0 then '-' :: decRepr n.natAbs else decRepr n.toNat

/-- String form of `intRepr`. -/
def intReprStr (n : Int) : String :=
  String.mk (intRepr n)

/-! ### Checkpoint name (src/main.py line 135) -/

/-- Character-list form of the checkpoint base name built at src/main.py:135:
`f'gc_model_test_attack_{n_neigh}_hid_{hid}_convs_{num_convs}{"_aug" if augmentation else ""}'`. -/
def modelNameChars (n_neigh hid num_convs : Int) (augmentation : Bool) : List Char :=
  "gc_model_test_attack_".data ++ intRepr n_neigh
    ++ "_hid_".data ++ intRepr hid
    ++ "_convs_".data ++ intRepr num_convs
    ++ (if augmentation then "_aug".data else [])

/-- Checkpoint base name (src/main.py line 135). -/
def modelName (n_neigh hid num_convs : Int) (augmentation : Bool) : String :=
  String.mk (modelNameChars n_neigh hid num_convs augmentation)

/-! ### Graph data model -/

/-- Modelled from the spec (§3 Graph): one attributed graph per split.  The
builder class `utils.dataset.AnomalyDetectionNodeClassificationDataset` is not
under `src/`; each dataset holds a single graph (`dataset[0]` in the script),
with a node label vector `y`, an edge list over node indices and a fixed
feature width. -/
structure Graph where
  numNodes : Nat
  numFeatures : Nat
  y : List Nat
  edges : List (Nat × Nat)
deriving DecidableEq

/-- One part yielded by the node-partition loader: the node subset together
with the graph it was cut from. -/
structure Part where
  base : Graph
  nodes : List Nat
deriving DecidableEq

/-- Edges of the node-induced subgraph of a part: only edges with both
endpoints inside the part survive (spec §4.2 — crossing edges are dropped). -/
def Part.edgesIn (p : Part) : List (Nat × Nat) :=
  p.base.edges.filter (fun e => decide (e.1 ∈ p.nodes) && decide (e.2 ∈ p.nodes))

/-- A model is its inference function: per-node class predictions for a part,
in the part's node order.  The network internals (`utils.nc_model`, not under
`src/`) are opaque to the orchestration script, which only applies the model. -/
abbrev Model := Part → List Nat

/-! ### Node partition loader (spec §4.2; `torch_geometric.loader.RandomNodeLoader`) -/

/-- Size of one chunk when a list of `n` nodes is split into `P` parts:
`⌈n / P⌉`. -/
def chunkSize (n P : Nat) : Nat := (n + P - 1) / P

/-- Successive chunks of size `sz`; exactly `P` chunks are produced, trailing
chunks possibly empty. -/
def chunksAux (sz : Nat) : Nat → List Nat → List (List Nat)
  | 0, _ => []
  | p + 1, l => l.take sz :: chunksAux sz p (l.drop sz)

/-- Modelled from the spec (§4.2, §3 Partitioned batch): the loader splits a
freshly drawn random permutation of the node ids into `P` near-equal contiguous
chunks; the permutation is the explicit randomness of one traversal. -/
def chunks (P : Nat) (perm : List Nat) : List (List Nat) :=
  chunksAux (chunkSize perm.length P) P perm

/-- Parts of one loader traversal of graph `g`: each chunk as a node-induced
subgraph of `g`. -/
def loaderParts (g : Graph) (P : Nat) (perm : List Nat) : List Part :=
  (chunks P perm).map (fun ns => { base := g, nodes := ns })

/-- Configuration a graph is wrapped with at src/main.py lines 95–97. -/
structure LoaderCfg where
  num_parts : Nat
  shuffle : Bool
deriving DecidableEq

/-! ### Evaluator (spec §4.5; `utils.nc_model.predict`, not under `src/`) -/

/-- Modelled from the spec (§4.5): `predict` runs the model over every part of
one loader traversal in inference mode and concatenates the per-part label and
prediction sequences in traversal order. -/
def predictRun (m : Model) (g : Graph) (P : Nat) (perm : List Nat) :
    List Nat × List Nat :=
  let parts := chunks P perm
  ((parts.map (fun ns => ns.map (fun i => g.y.getD i 0))).flatten,
   (parts.map (fun ns => m { base := g, nodes := ns })).flatten)

/-! ### Metrics (sklearn routines used at src/main.py lines 165–180) -/

/-- Number of positions where the two label vectors agree. -/
def countMatches : List Nat → List Nat → Nat
  | t :: ts, p :: ps => (if t = p then 1 else 0) + countMatches ts ps
  | _, _ => 0

/-- `sklearn.metrics.accuracy_score`: fraction of agreeing positions. -/
def accuracy (yt yp : List Nat) : ℚ :=
  (countMatches yt yp : ℚ) / (yt.length : ℚ)

/-- Distinct classes occurring in a label vector (`np.unique`, as a set). -/
def classesOf (yt : List Nat) : List Nat := yt.dedup

/-- Per-class recall: fraction of true members of class `c` predicted as `c`. -/
def recallC (yt yp : List Nat) (c : Nat) : ℚ :=
  (((yt.zip yp).filter (fun x => decide (x.1 = c) && decide (x.2 = c))).length : ℚ)
    / (yt.count c : ℚ)

/-- `sklearn.metrics.balanced_accuracy_score`: mean of per-class recalls. -/
def balancedAccuracy (yt yp : List Nat) : ℚ :=
  (((classesOf yt).map (recallC yt yp)).sum) / ((classesOf yt).length : ℚ)

/-- Entry `(t, u)` of the row-normalized confusion matrix
(`confusion_matrix(..., normalize="true")`). -/
def confusionEntry (yt yp : List Nat) (t u : Nat) : ℚ :=
  (((yt.zip yp).filter (fun x => decide (x.1 = t) && decide (x.2 = u))).length : ℚ)
    / (yt.count t : ℚ)

/-- Per-class recall vector (`recall_score(..., average=None)`). -/
def recallVec (yt yp : List Nat) : List ℚ :=
  (classesOf yt).map (recallC yt yp)

/-! ### Class weights (src/main.py lines 122–130) -/

/-- Occurrences of label `c` in `y` (`np.bincount` entry). -/
def countLabel (y : List Nat) (c : Nat) : Nat := y.count c

/-- Number of distinct labels in `y` (`len(np.unique(y))`). -/
def numClassesIn (y : List Nat) : Nat := y.dedup.length

/-- `sklearn.utils.class_weight.compute_class_weight('balanced', ...)`:
weight of class `c` is `n_samples / (n_classes * count c)`. -/
def balancedWeight (y : List Nat) (c : Nat) : ℚ :=
  (y.length : ℚ) / ((numClassesIn y : ℚ) * (countLabel y c : ℚ))

/-! ### Early-stopping training loop (spec §4.4; `utils.nc_model.train`, not
under `src/`) -/

/-- State of the early-stopping machine: best validation loss observed so far
(`none` is the initial `+∞`), consecutive-no-improvement counter, and the
epoch whose parameters are in the persisted checkpoint. -/
structure ESState where
  best : Option ℚ
  stall : Nat
  ckptEpoch : Option Nat
deriving DecidableEq

/-- Initial early-stopping state: `IMPROVING` with best loss `+∞`, no stall,
nothing checkpointed. -/
def esInit : ESState := { best := none, stall := 0, ckptEpoch := none }

/-- A validation loss `v` improves on the recorded best iff the best is still
`+∞` or `v` is strictly smaller. -/
def improves : Option ℚ → ℚ → Bool
  | none, _ => true
  | some b, v => decide (v < b)

/-- Modelled from the spec (§4.4): one epoch's early-stopping transition on
validation loss `v`.  On improvement the best loss is updated, the stall
counter reset and the current epoch's parameters checkpointed; otherwise the
stall counter grows and the run stops once it reaches `patience`. -/
def esStep (patience : Nat) (s : ESState) (epoch : Nat) (v : ℚ) :
    ESState × Bool :=
  if improves s.best v then
    ({ best := some v, stall := 0, ckptEpoch := some epoch }, false)
  else
    ({ s with stall := s.stall + 1 }, decide (patience ≤ s.stall + 1))

/-- Modelled from the spec (§4.4): the training loop over the per-epoch
validation losses `f`, running at most `rem` further epochs from state `s` at
epoch `e`; returns the final state and the number of epochs executed. -/
def trainLoop (patience : Nat) (f : Nat → ℚ) :
    Nat → ESState → Nat → ESState × Nat
  | 0, s, e => (s, e)
  | rem + 1, s, e =>
    match esStep patience s e (f e) with
    | (s', true) => (s', e + 1)
    | (s', false) => trainLoop patience f rem s' (e + 1)

/-- Full run of the early-stopping loop from the initial state. -/
def runTrainLoop (patience : Nat) (f : Nat → ℚ) (max_epochs : Nat) :
    ESState × Nat :=
  trainLoop patience f max_epochs esInit 0

/-- Invariant of the early-stopping loop after `e > 0` processed epochs:
the checkpoint holds the first epoch attaining the minimal observed loss, the
best loss is that minimum, and the stall counter counts the epochs since. -/
def esInv (patience : Nat) (f : Nat → ℚ) (e : Nat) (s : ESState) : Prop :=
  0 < e ∧ s.stall < patience ∧
    ∃ i, i < e ∧ s.ckptEpoch = some i ∧ s.best = some (f i) ∧
      (∀ j, j < e → f i ≤ f j) ∧ (∀ j, j < i → f i < f j) ∧
      s.stall = e - 1 - i

/-! ### Python name resolution for the f-string at src/main.py lines 170–174 -/

/-- Run-time error of the embedded script fragment. -/
inductive PyError where
  | nameError (x : String)
deriving DecidableEq

/-- One piece of an f-string: a literal, an interpolated name, or the
conditional `{"_aug" if augmentation else ""}` (which reads one name). -/
inductive FPiece where
  | lit (s : String)
  | name (x : String)
  | augCond (x : String)
deriving DecidableEq

/-- Python evaluation of an f-string: pieces left to right, each interpolated
name resolved against the names in scope; the first unresolvable name raises
`NameError`. -/
def evalFString (scope : List String) (valueOf : String → String)
    (augVal : Bool) : List FPiece → Except PyError String
  | [] => .ok ""
  | .lit s :: rest =>
    (evalFString scope valueOf augVal rest).map (fun r => s ++ r)
  | .name x :: rest =>
    if x ∈ scope then
      (evalFString scope valueOf augVal rest).map (fun r => valueOf x ++ r)
    else .error (.nameError x)
  | .augCond x :: rest =>
    if x ∈ scope then
      (evalFString scope valueOf augVal rest).map
        (fun r => (if augVal then "_aug" else "") ++ r)
    else .error (.nameError x)

/-- Names in scope at src/main.py line 170: every local of
`node_classification` assigned by then, plus every module-level name of
src/main.py (its imports and definitions; the imports are all explicit, no
star import).  No Python builtin is named `proto_type` either. -/
def nodeClassificationScope : List String :=
  [ "dataset_path", "n_neigh", "augmentation", "hid", "num_convs",
    "log_path", "log_file_path", "log_train_path", "model_path",
    "result_path", "confusion_matrix_path", "detection_rate_path",
    "directory", "logger", "train_logger",
    "_file_name_training", "_file_path_training", "_file_name_val",
    "_file_name_testing",
    "train_dataset", "val_dataset", "test_dataset",
    "train_data", "val_data", "test_data",
    "train_loader", "val_loader", "test_loader",
    "model", "device", "y", "class_weights", "criterion",
    "y_val", "class_weights_val", "criterion_val", "optimizer",
    "model_name", "model_trained_path", "y_true", "y_pred",
    "final", "np", "argparse", "os", "torch", "nn", "Adadelta",
    "class_weight", "MAPPING", "AnomalyDetectionNodeClassificationDataset",
    "RandomNodeLoader", "NodeClassificator", "train", "predict",
    "accuracy_score", "recall_score", "classification_report",
    "balanced_accuracy_score", "confusion_matrix",
    "SEPARATOR", "str2bool", "get_path_of_all", "create_directory",
    "plot_confusion_matrix", "plot_recall", "setup_logger",
    "NAME_DIR", "node_classification" ]

/-- The f-string of src/main.py lines 170–174 building `image_name`, piece by
piece. -/
def imageNameTemplate : List FPiece :=
  [ .lit "node-classification_", .name "n_neigh",
    .lit "_", .name "proto_type",
    .lit "_hid_", .name "hid",
    .lit "_convs_", .name "num_convs",
    .augCond "augmentation",
    .lit ".png" ]

/-! ### Plotting call sites (src/main.py lines 176–180) -/

/-- Modelled from the spec (§6, §9): `pre_processing.MAPPING` (module not under
`src/`) is the 10-entry label-mapping table; the spec fixes only the entry
count, so the key names here are placeholders. -/
def MAPPING_keys : List String :=
  [ "class_0", "class_1", "class_2", "class_3", "class_4",
    "class_5", "class_6", "class_7", "class_8", "class_9" ]

/-- Which chart a plotting call renders. -/
inductive PlotKind where
  | confusionChart
  | recallChart
deriving DecidableEq

/-- One call into the plotting collaborator: chart kind, the class-label
sequence passed, and the output path (the numeric payload is owned by the
collaborator and not tracked). -/
structure PlotCall where
  kind : PlotKind
  labels : List String
  path : String
deriving DecidableEq

/-- The two plotting calls of src/main.py lines 177 and 180, as performed when
`image_name` evaluates to `img`: both pass `MAPPING.keys()` as labels. -/
def plotCallsFor (cmPath drPath img : String) : List PlotCall :=
  [ { kind := .confusionChart, labels := MAPPING_keys, path := cmPath ++ "/" ++ img },
    { kind := .recallChart, labels := MAPPING_keys, path := drPath ++ "/" ++ img } ]

/-! ### Environment and outcome of one run -/

/-- Modelled from the spec: `utils.SEPARATOR` (not under `src/`) is a fixed
separator line written between log sections. -/
def SEPARATOR : String := "--------------------------------------------------"

/-- Directory/file name constant of src/main.py line 33. -/
def NAME_DIR : String := "01 - Node Classification"

/-- Paths returned by `utils.get_path_of_all` (not under `src/`): the
log/model/result directories of a run.  Modelled from the spec: a
deterministic function of the run parameters, provided by the environment. -/
structure Paths where
  log_path : String
  log_file_path : String
  log_train_path : String
  model_path : String
  result_path : String
  confusion_matrix_path : String
  detection_rate_path : String
deriving DecidableEq

/-- Arguments of one `AnomalyDetectionNodeClassificationDataset(...)` call
(src/main.py lines 56–77).  The val/test calls pass no `augmentation`
argument; modelled from the spec (§3, §4.1: augmentation is only ever true for
the train split), the builder's default is `augmentation = false`. -/
structure DatasetArgs where
  root : String
  file_name : String
  num_neighbors : Int
  augmentation : Bool
  val : Bool
  test : Bool
deriving DecidableEq

/-- Arguments of the `NodeClassificator(...)` construction
(src/main.py lines 106–114); the dataset argument is tracked separately. -/
structure ModelCfg where
  num_classes : Nat
  num_convs : Int
  hid : Int
  alpha : ℚ
  theta : ℚ
  dropout : ℚ
deriving DecidableEq

/-- Arguments of the `train(...)` call (src/main.py lines 141–155) that the
spec's training-loop contract (§4.4) consumes: epoch budget, patience,
checkpoint identity and the two loss weight vectors. -/
structure TrainParams where
  epochs : Nat
  patience : Nat
  model_name : String
  model_path : String
  trainWeights : Nat → ℚ
  valWeights : Nat → ℚ

/-- Deterministic environment of one run: the external collaborators of
src/main.py.  `build` is the dataset builder, `fsExists` the checkpoint
existence test (`os.path.exists`), `loadModel` the checkpoint loader
(`torch.load` + `load_state_dict`), `mkModel` the network construction and
`trainResult` the model as mutated and returned by `train`. -/
structure Env where
  cwd : String
  getPaths : String → Int → Int → Int → Bool → Paths
  build : DatasetArgs → Graph
  fsExists : String → Bool
  loadModel : String → Model
  mkModel : ModelCfg → Graph → Model
  trainResult : Model → TrainParams → Model

/-- Randomness consumed by one run: the node permutation drawn by the shuffled
test loader for the prediction traversal (the randomness inside `train` is
absorbed by `Env.trainResult`). -/
structure RunRng where
  testPerm : List Nat

/-- Observables of one run of `node_classification`. -/
structure Outcome where
  paths : Paths
  trainArgs : DatasetArgs
  valArgs : DatasetArgs
  testArgs : DatasetArgs
  train_dataset : Graph
  val_dataset : Graph
  test_dataset : Graph
  logs : List String
  trainLoaderCfg : LoaderCfg
  valLoaderCfg : LoaderCfg
  testLoaderCfg : LoaderCfg
  modelCfg : ModelCfg
  criterionWeights : Nat → ℚ
  criterionValWeights : Nat → ℚ
  model_name : String
  model_trained_path : String
  loadedCheckpoint : Bool
  trainCalled : Bool
  trainCall : Option TrainParams
  finalModel : Model
  y_true : List Nat
  y_pred : List Nat
  metricsLogged : Bool
  runError : Option PyError
  plots : List PlotCall

/-- Shallow embedding of `node_classification` (src/main.py lines 36–180).
Each step mirrors the script in order; logged object representations
(`logger.info(train_data)` etc.) and the `classification_report` line are
elided, as is the `create_directory` loop (a pure filesystem effect). -/
def nodeClassification (env : Env) (dataset_path : String) (n_neigh : Int)
    (augmentation : Bool) (hid num_convs : Int) (rng : RunRng) : Outcome :=
  -- lines 38–40: get_path_of_all(NAME_DIR, ...)
  let paths := env.getPaths NAME_DIR n_neigh hid num_convs augmentation
  -- lines 50–53
  let _file_name_training := "UNSW-NB15-train.csv"
  let _file_name_val := "UNSW-NB15-val.csv"
  let _file_name_testing := "UNSW-NB15-test.csv"
  -- lines 56–77: three dataset builder calls; only the train call passes the
  -- augmentation flag, the val/test calls leave the builder default (false)
  let trainArgs : DatasetArgs :=
    { root := dataset_path, file_name := _file_name_training,
      num_neighbors := n_neigh, augmentation := augmentation,
      val := false, test := false }
  let valArgs : DatasetArgs :=
    { root := dataset_path, file_name := _file_name_val,
      num_neighbors := n_neigh, augmentation := false,
      val := true, test := false }
  let testArgs : DatasetArgs :=
    { root := dataset_path, file_name := _file_name_testing,
      num_neighbors := n_neigh, augmentation := false,
      val := false, test := true }
  let train_dataset := env.build trainArgs
  let val_dataset := env.build valArgs
  let test_dataset := env.build testArgs
  -- lines 84–86: each dataset holds the single graph dataset[0]
  let train_data := train_dataset
  let val_data := val_dataset
  let test_data := test_dataset
  -- lines 95–97
  let train_loader : LoaderCfg := { num_parts := 64, shuffle := true }
  let val_loader : LoaderCfg := { num_parts := 64, shuffle := true }
  let test_loader : LoaderCfg := { num_parts := 64, shuffle := true }
  -- lines 106–114
  let modelCfg : ModelCfg :=
    { num_classes := 2, num_convs := num_convs, hid := hid,
      alpha := 1/2, theta := 7/10, dropout := 1/2 }
  let model := env.mkModel modelCfg train_data
  -- lines 122–130: balanced class weights of each split's own labels
  let y := train_dataset.y
  let class_weights := fun c => balancedWeight y c
  let criterion := class_weights
  let y_val := val_dataset.y
  let class_weights_val := fun c => balancedWeight y_val c
  let criterion_val := class_weights_val
  -- lines 135–136
  let model_name := modelName n_neigh hid num_convs augmentation
  let model_trained_path := paths.model_path ++ "/" ++ model_name ++ ".h5"
  -- lines 137–155: resume-vs-train decision on checkpoint existence
  let ckptExists := env.fsExists model_trained_path
  let tp : TrainParams :=
    { epochs := 1000, patience := 20, model_name := model_name,
      model_path := paths.model_path,
      trainWeights := criterion, valWeights := criterion_val }
  let finalModel :=
    if ckptExists then env.loadModel model_trained_path
    else env.trainResult model tp
  let trainCall : Option TrainParams := if ckptExists then none else some tp
  -- lines 159–163: predict over one shuffled test-loader traversal
  let pr := predictRun finalModel test_data train_loader.num_parts rng.testPerm
  let y_true := pr.1
  let y_pred := pr.2
  -- lines 79–81, 100–104, 165–167: logged lines
  let logs : List String :=
    [ "Number of features: " ++ toString train_dataset.numFeatures,
      "Number of classes: 10", SEPARATOR,
      "N. Convs: " ++ toString num_convs,
      "N. Hidden Channels: " ++ toString hid, SEPARATOR,
      "Accuracy on test: " ++ toString (accuracy y_true y_pred),
      "Balanced accuracy on test: " ++ toString (balancedAccuracy y_true y_pred) ]
  -- lines 170–180: image_name f-string, then the two plot calls
  let imgRes := evalFString nodeClassificationScope
    (fun x =>
      if x = "n_neigh" then intReprStr n_neigh
      else if x = "hid" then intReprStr hid
      else if x = "num_convs" then intReprStr num_convs
      else "")
    augmentation imageNameTemplate
  let plots := match imgRes with
    | .ok img =>
      plotCallsFor paths.confusion_matrix_path paths.detection_rate_path img
    | .error _ => []
  let runError : Option PyError := match imgRes with
    | .ok _ => none
    | .error e => some e
  { paths := paths, trainArgs := trainArgs, valArgs := valArgs,
    testArgs := testArgs, train_dataset := train_dataset,
    val_dataset := val_dataset, test_dataset := test_dataset, logs := logs,
    trainLoaderCfg := train_loader, valLoaderCfg := val_loader,
    testLoaderCfg := test_loader, modelCfg := modelCfg,
    criterionWeights := criterion, criterionValWeights := criterion_val,
    model_name := model_name, model_trained_path := model_trained_path,
    loadedCheckpoint := ckptExists, trainCalled := !ckptExists,
    trainCall := trainCall, finalModel := finalModel,
    y_true := y_true, y_pred := y_pred, metricsLogged := true,
    runError := runError, plots := plots }

/-! ### Command-line surface (src/main.py lines 183–197) -/

/-- The four command-line arguments of src/main.py lines 186–193 (the only
externally controllable parameters), with their argparse defaults as built by
`parser.parse_args()` when a flag is absent. -/
structure CliArgs where
  aug : Bool
  neigh : Int
  hid : Int
  n_convs : Int
deriving DecidableEq

/-- Embedding of the `__main__` block (src/main.py line 197): the parsed
arguments are handed to `node_classification` with the dataset path
`os.path.join(os.getcwd(), 'dataset')`. -/
def mainEntry (env : Env) (rng : RunRng) (args : CliArgs) : Outcome :=
  nodeClassification env (env.cwd ++ "/dataset") args.neigh args.aug args.hid
    args.n_convs rng

/-! ### Concrete instances used by counterexamples and witnesses -/

/-- Concrete paths instance. -/
def cePaths : Paths :=
  { log_path := "log", log_file_path := "log/run.log",
    log_train_path := "log/train.log", model_path := "models",
    result_path := "results", confusion_matrix_path := "cm",
    detection_rate_path := "dr" }

/-- Concrete 65-node test graph: one edge between nodes 0 and 1, all labels 1.
With 64 parts the loader chunks are pairs, so whether the single edge survives
depends on the permutation drawn. -/
def ceGraph : Graph :=
  { numNodes := 65, numFeatures := 1, y := List.replicate 65 1,
    edges := [(0, 1)] }

/-- Concrete model: predicts 1 for a node exactly when the node has an
incident edge inside its part (a graph convolution's output does depend on the
surviving intra-part edges). -/
def ceModel : Model := fun part =>
  part.nodes.map (fun v =>
    if part.edgesIn.any (fun e => decide (e.1 = v) || decide (e.2 = v)) then 1
    else 0)

/-- Concrete environment for a first run: no checkpoint on disk, training
produces `ceModel`. -/
def ceEnv1 : Env :=
  { cwd := "/home/user",
    getPaths := fun _ _ _ _ _ => cePaths,
    build := fun _ => ceGraph,
    fsExists := fun _ => false,
    loadModel := fun _ => ceModel,
    mkModel := fun _ _ => ceModel,
    trainResult := fun _ _ => ceModel }

/-- Concrete environment for a second run over the same program state: the
checkpoint left by the first run now exists and loading it restores exactly
the first run's trained model. -/
def ceEnv2 : Env := { ceEnv1 with fsExists := fun _ => true }

/-- Test permutation of the first run: identity, so nodes 0 and 1 share the
first part and the edge survives. -/
def cePerm1 : List Nat := List.range 65

/-- Test permutation of the second run: nodes 1 and 2 swapped, so nodes 0 and
1 land in different parts and the edge is dropped. -/
def cePerm2 : List Nat := [0, 2, 1] ++ List.range' 3 62

/-- Concrete label vector with a minority class 1 (one sample) and a majority
class 0 (three samples). -/
def ceLabels : List Nat := [0, 0, 0, 1]

/-- Concrete validation-loss sequence: improvements at epochs 0 and 1, then
only non-improving epochs. -/
def ceLosses : List ℚ := [10, 9, 12, 13, 14]

/-- Concrete loss function for the early-stopping witness. -/
def ceLossF : Nat → ℚ := fun n => ceLosses.getD n 0

/-- Concrete graph for the partition-loader witness. -/
def ceSmallGraph : Graph :=
  { numNodes := 3, numFeatures := 2, y := [0, 1, 0], edges := [(0, 1)] }

/-- Concrete permutation for the partition-loader witness. -/
def ceSmallPerm : List Nat := [2, 0, 1]

/-! ## Helper lemmas -/

theorem chunksAux_length (sz : Nat) :
    ∀ (P : Nat) (l : List Nat), (chunksAux sz P l).length = P := by
  intro P
  induction P with
  | zero => intro l; rfl
  | succ p ih => intro l; simp [chunksAux, ih]

theorem chunksAux_flatten (sz : Nat) :
    ∀ (P : Nat) (l : List Nat), l.length ≤ sz * P →
      (chunksAux sz P l).flatten = l := by
  intro P
  induction P with
  | zero =>
    intro l hl
    have : l = [] := List.eq_nil_of_length_eq_zero (by omega)
    simp [chunksAux, this]
  | succ p ih =>
    intro l hl
    have hdrop : (l.drop sz).length ≤ sz * p := by
      rw [List.length_drop]
      have : sz * (p + 1) = sz * p + sz := by ring
      omega
    simp only [chunksAux, List.flatten_cons, ih (l.drop sz) hdrop]
    exact List.take_append_drop sz l

theorem chunkSize_mul (n P : Nat) (hP : 0 < P) : n ≤ chunkSize n P * P := by
  unfold chunkSize
  have h1 := Nat.div_add_mod (n + P - 1) P
  have h2 : (n + P - 1) % P < P := Nat.mod_lt _ hP
  have h6 : P * ((n + P - 1) / P) + (n + P - 1) % P + 1 = n + P := by
    rw [h1]; omega
  rw [Nat.mul_comm]
  linarith

theorem chunks_flatten (P : Nat) (hP : 0 < P) (l : List Nat) :
    (chunks P l).flatten = l :=
  chunksAux_flatten _ _ _ (chunkSize_mul l.length P hP)

theorem chunks_length (P : Nat) (l : List Nat) : (chunks P l).length = P :=
  chunksAux_length _ _ _

theorem charVal_digitChar : ∀ k, k < 10 → charVal (digitChar k) = k := by
  decide

theorem digitChar_plain : ∀ k, k < 10 → digitChar k ≠ '_' ∧ digitChar k ≠ '-' := by
  decide

theorem decRepr_plain (n : Nat) : ∀ ch ∈ decRepr n, ch ≠ '_' ∧ ch ≠ '-' := by
  induction n using Nat.strong_induction_on with
  | _ n ih =>
    rw [decRepr]
    split
    · next hlt =>
      intro ch hch
      simp only [List.mem_singleton] at hch
      subst hch
      exact digitChar_plain n hlt
    · next hlt =>
      intro ch hch
      rcases List.mem_append.mp hch with hch | hch
      · exact ih (n / 10) (Nat.div_lt_self (by omega) (by omega)) ch hch
      · simp only [List.mem_singleton] at hch
        subst hch
        exact digitChar_plain (n % 10) (Nat.mod_lt _ (by omega))

theorem decRepr_foldl (n : Nat) : ∀ a : Nat,
    List.foldl (fun acc ch => 10 * acc + charVal ch) a (decRepr n)
      = a * 10 ^ (decRepr n).length + n := by
  induction n using Nat.strong_induction_on with
  | _ n ih =>
    intro a
    rw [decRepr]
    split
    · next hlt =>
      simp only [List.foldl_cons, List.foldl_nil, List.length_singleton]
      rw [charVal_digitChar n hlt, pow_one]
      omega
    · next hlt =>
      rw [List.foldl_append]
      simp only [List.foldl_cons, List.foldl_nil, List.length_append,
        List.length_singleton]
      rw [ih (n / 10) (Nat.div_lt_self (by omega) (by omega)) a]
      rw [charVal_digitChar (n % 10) (Nat.mod_lt _ (by omega))]
      have hdm : 10 * (n / 10) + n % 10 = n := Nat.div_add_mod n 10
      calc 10 * (a * 10 ^ (decRepr (n / 10)).length + n / 10) + n % 10
          = a * (10 ^ (decRepr (n / 10)).length * 10)
              + (10 * (n / 10) + n % 10) := by ring
        _ = a * 10 ^ ((decRepr (n / 10)).length + 1) + n := by
            rw [hdm, pow_succ]

theorem decRepr_inj {m n : Nat} (h : decRepr m = decRepr n) : m = n := by
  have hm := decRepr_foldl m 0
  rw [h, decRepr_foldl n 0] at hm
  simpa using hm.symm

theorem intRepr_no_underscore (n : Int) : ∀ ch ∈ intRepr n, ch ≠ '_' := by
  unfold intRepr
  split
  · intro ch hch
    rcases List.mem_cons.mp hch with rfl | hch
    · decide
    · exact (decRepr_plain _ ch hch).1
  · intro ch hch
    exact (decRepr_plain _ ch hch).1

theorem intRepr_inj {a b : Int} (h : intRepr a = intRepr b) : a = b := by
  unfold intRepr at h
  split at h <;> split at h
  · next ha hb =>
    injection h with h1 h2
    have := decRepr_inj h2
    omega
  · next ha hb =>
    exfalso
    have hm : '-' ∈ decRepr b.toNat := by
      rw [← h]; exact List.mem_cons_self _ _
    exact (decRepr_plain _ '-' hm).2 rfl
  · next ha hb =>
    exfalso
    have hm : '-' ∈ decRepr a.toNat := by
      rw [h]; exact List.mem_cons_self _ _
    exact (decRepr_plain _ '-' hm).2 rfl
  · next ha hb =>
    have := decRepr_inj h
    omega

theorem underscore_head {ch : Char} (l r : List Char)
    (hl : l.head? = some '_') (h : (l ++ r).head? = some ch) : ch = '_' := by
  cases l with
  | nil => simp at hl
  | cons x xs =>
    simp only [List.head?_cons, Option.some.injEq] at hl
    simp only [List.cons_append, List.head?_cons, Option.some.injEq] at h
    exact h.symm.trans hl

theorem aug_head {ch : Char} (b : Bool)
    (h : ((if b then "_aug".data else []) : List Char).head? = some ch) :
    ch = '_' := by
  cases b
  · simp at h
  · simp only [if_true, List.head?_cons, Option.some.injEq] at h
    exact h.symm

theorem aug_inj {a a' : Bool}
    (h : (if a then "_aug".data else ([] : List Char))
      = (if a' then "_aug".data else [])) : a = a' := by
  cases a <;> cases a'
  · rfl
  · exact absurd h (by decide)
  · exact absurd h (by decide)
  · rfl

theorem append_split : ∀ (xs ys s t : List Char),
    (∀ ch ∈ xs, ch ≠ '_') → (∀ ch ∈ ys, ch ≠ '_') →
    (∀ ch, s.head? = some ch → ch = '_') →
    (∀ ch, t.head? = some ch → ch = '_') →
    xs ++ s = ys ++ t → xs = ys ∧ s = t := by
  intro xs
  induction xs with
  | nil =>
    intro ys s t hx hy hs ht h
    cases ys with
    | nil => simpa using h
    | cons y ys' =>
      exfalso
      simp only [List.nil_append, List.cons_append] at h
      have : s.head? = some y := by rw [h]; rfl
      exact hy y (List.mem_cons_self _ _) (hs y this)
  | cons x xs' ih =>
    intro ys s t hx hy hs ht h
    cases ys with
    | nil =>
      exfalso
      simp only [List.nil_append, List.cons_append] at h
      have : t.head? = some x := by rw [← h]; rfl
      exact hx x (List.mem_cons_self _ _) (ht x this)
    | cons y ys' =>
      simp only [List.cons_append, List.cons.injEq] at h
      obtain ⟨rfl, h2⟩ := h
      obtain ⟨h3, h4⟩ := ih ys' s t
        (fun ch hch => hx ch (List.mem_cons_of_mem _ hch))
        (fun ch hch => hy ch (List.mem_cons_of_mem _ hch)) hs ht h2
      exact ⟨by rw [h3], h4⟩

/-! ## Claims -/

/-- Claim C1: on every run of `node_classification`, `train` is invoked iff no
checkpoint file named after `model_name` exists in the model directory; when
the file exists its parameters are loaded and training is skipped; and the
existence of that single file is the sole signal deciding resume versus train
(two environments agreeing on it make the same decision, whatever else they
disagree on). -/
theorem claim1_resume_policy :
    (∀ (env : Env) (dp : String) (n : Int) (a : Bool) (h c : Int)
        (rng : RunRng),
      let o := nodeClassification env dp n a h c rng
      (o.trainCalled = true ↔ env.fsExists o.model_trained_path = false) ∧
      o.loadedCheckpoint = env.fsExists o.model_trained_path ∧
      o.model_name = modelName n h c a ∧
      o.model_trained_path
        = o.paths.model_path ++ "/" ++ o.model_name ++ ".h5" ∧
      o.trainCalled = !o.loadedCheckpoint) ∧
    (∀ (env₁ env₂ : Env) (dp₁ dp₂ : String) (n : Int) (a : Bool) (h c : Int)
        (rng₁ rng₂ : RunRng),
      env₁.getPaths NAME_DIR n h c a = env₂.getPaths NAME_DIR n h c a →
      env₁.fsExists ((env₁.getPaths NAME_DIR n h c a).model_path ++ "/"
          ++ modelName n h c a ++ ".h5")
        = env₂.fsExists ((env₂.getPaths NAME_DIR n h c a).model_path ++ "/"
          ++ modelName n h c a ++ ".h5") →
      (nodeClassification env₁ dp₁ n a h c rng₁).trainCalled
        = (nodeClassification env₂ dp₂ n a h c rng₂).trainCalled ∧
      (nodeClassification env₁ dp₁ n a h c rng₁).loadedCheckpoint
        = (nodeClassification env₂ dp₂ n a h c rng₂).loadedCheckpoint) := by
  constructor
  · intro env dp n a h c rng
    refine ⟨?_, rfl, rfl, rfl, rfl⟩
    have key : (nodeClassification env dp n a h c rng).trainCalled
        = !env.fsExists (nodeClassification env dp n a h c rng).model_trained_path :=
      rfl
    rw [key]
    cases env.fsExists (nodeClassification env dp n a h c rng).model_trained_path <;>
      simp
  · intro env₁ env₂ dp₁ dp₂ n a h c rng₁ rng₂ hpaths hfs
    have e1 : (nodeClassification env₁ dp₁ n a h c rng₁).trainCalled
        = !env₁.fsExists ((env₁.getPaths NAME_DIR n h c a).model_path ++ "/"
            ++ modelName n h c a ++ ".h5") := rfl
    have e2 : (nodeClassification env₂ dp₂ n a h c rng₂).trainCalled
        = !env₂.fsExists ((env₂.getPaths NAME_DIR n h c a).model_path ++ "/"
            ++ modelName n h c a ++ ".h5") := rfl
    have l1 : (nodeClassification env₁ dp₁ n a h c rng₁).loadedCheckpoint
        = env₁.fsExists ((env₁.getPaths NAME_DIR n h c a).model_path ++ "/"
            ++ modelName n h c a ++ ".h5") := rfl
    have l2 : (nodeClassification env₂ dp₂ n a h c rng₂).loadedCheckpoint
        = env₂.fsExists ((env₂.getPaths NAME_DIR n h c a).model_path ++ "/"
            ++ modelName n h c a ++ ".h5") := rfl
    rw [e1, e2, l1, l2, hfs]
    exact ⟨rfl, rfl⟩

/-- Witness for C1: the sole-signal part applied to two concrete runs that
differ in dataset path and drawn permutation but agree on the checkpoint
file's existence. -/
theorem claim1_resume_policy_witness :
    (ceEnv1.getPaths NAME_DIR 0 2048 16 true
      = ceEnv1.getPaths NAME_DIR 0 2048 16 true) ∧
    (ceEnv1.fsExists ((ceEnv1.getPaths NAME_DIR 0 2048 16 true).model_path
        ++ "/" ++ modelName 0 2048 16 true ++ ".h5")
      = ceEnv1.fsExists ((ceEnv1.getPaths NAME_DIR 0 2048 16 true).model_path
        ++ "/" ++ modelName 0 2048 16 true ++ ".h5")) ∧
    ((nodeClassification ceEnv1 "a" 0 true 2048 16 ⟨cePerm1⟩).trainCalled
        = (nodeClassification ceEnv1 "b" 0 true 2048 16 ⟨cePerm2⟩).trainCalled ∧
      (nodeClassification ceEnv1 "a" 0 true 2048 16 ⟨cePerm1⟩).loadedCheckpoint
        = (nodeClassification ceEnv1 "b" 0 true 2048 16 ⟨cePerm2⟩).loadedCheckpoint) :=
  ⟨rfl, rfl,
    claim1_resume_policy.2 ceEnv1 ceEnv1 "a" "b" 0 true 2048 16
      ⟨cePerm1⟩ ⟨cePerm2⟩ rfl rfl⟩

/-- Claim C2: every invocation that reaches the plotting stage (the metrics
are logged first) evaluates `image_name`, whose f-string reads the name
`proto_type`; that name is in no scope of src/main.py, so a `NameError` is
raised and neither plot is ever produced. -/
theorem claim2_proto_type_name_error (env : Env) (dp : String) (n : Int)
    (a : Bool) (h c : Int) (rng : RunRng) :
    let o := nodeClassification env dp n a h c rng
    o.metricsLogged = true ∧
    o.runError = some (PyError.nameError "proto_type") ∧
    o.plots = [] ∧
    "proto_type" ∉ nodeClassificationScope :=
  ⟨rfl, rfl, rfl, by decide⟩

/-- Claim C4: on every run the model is constructed with `num_classes = 2`
while the logger reports `"Number of classes: 10"`, and the plotting stage's
two calls label their charts with the 10-entry `MAPPING.keys()`. -/
theorem claim4_binary_vs_ten_way :
    (∀ (env : Env) (dp : String) (n : Int) (a : Bool) (h c : Int)
        (rng : RunRng),
      let o := nodeClassification env dp n a h c rng
      o.modelCfg.num_classes = 2 ∧
      "Number of classes: 10" ∈ o.logs) ∧
    MAPPING_keys.length = 10 ∧
    (∀ cmPath drPath img : String,
      (plotCallsFor cmPath drPath img).map PlotCall.labels
        = [MAPPING_keys, MAPPING_keys]) := by
  refine ⟨?_, rfl, fun _ _ _ => rfl⟩
  intro env dp n a h c rng
  exact ⟨rfl, by simp [nodeClassification]⟩

/-- Claim C6: the augmentation flag is passed only to the training dataset
builder; the val/test builder calls carry the default `augmentation = false`,
so two runs differing only in the flag construct identical val and test
datasets. -/
theorem claim6_augmentation_scope (env : Env) (dp : String) (n : Int)
    (h c : Int) (rng : RunRng) :
    (∀ a : Bool,
      let o := nodeClassification env dp n a h c rng
      o.trainArgs.augmentation = a ∧
      o.valArgs.augmentation = false ∧
      o.testArgs.augmentation = false) ∧
    (nodeClassification env dp n true h c rng).valArgs
      = (nodeClassification env dp n false h c rng).valArgs ∧
    (nodeClassification env dp n true h c rng).testArgs
      = (nodeClassification env dp n false h c rng).testArgs ∧
    (nodeClassification env dp n true h c rng).val_dataset
      = (nodeClassification env dp n false h c rng).val_dataset ∧
    (nodeClassification env dp n true h c rng).test_dataset
      = (nodeClassification env dp n false h c rng).test_dataset :=
  ⟨fun _ => ⟨rfl, rfl, rfl⟩, rfl, rfl, rfl, rfl⟩

/-- Claim C9: every run wraps each of the three split graphs in a partition
loader with `num_parts = 64` and `shuffle = true`; and a traversal on any
drawn permutation of the node ids cuts the graph into exactly 64 contiguous
chunks whose concatenation is the permutation itself — every node in exactly
one part — each part being a node-induced subgraph. -/
theorem claim9_partition_loader :
    (∀ (env : Env) (dp : String) (n : Int) (a : Bool) (h c : Int)
        (rng : RunRng),
      let o := nodeClassification env dp n a h c rng
      o.trainLoaderCfg = ⟨64, true⟩ ∧
      o.valLoaderCfg = ⟨64, true⟩ ∧
      o.testLoaderCfg = ⟨64, true⟩) ∧
    (∀ (g : Graph) (perm : List Nat),
      List.Perm perm (List.range g.numNodes) →
      (chunks 64 perm).length = 64 ∧
      (chunks 64 perm).flatten = perm ∧
      List.Perm (chunks 64 perm).flatten (List.range g.numNodes) ∧
      (∀ pt ∈ loaderParts g 64 perm, ∀ e ∈ pt.edgesIn,
        e.1 ∈ pt.nodes ∧ e.2 ∈ pt.nodes ∧ e ∈ g.edges)) := by
  constructor
  · intro env dp n a h c rng
    exact ⟨rfl, rfl, rfl⟩
  · intro g perm hperm
    refine ⟨chunks_length 64 perm, chunks_flatten 64 (by omega) perm, ?_, ?_⟩
    · rw [chunks_flatten 64 (by omega) perm]; exact hperm
    · intro pt hpt e he
      rcases List.mem_map.mp hpt with ⟨ns, _, rfl⟩
      have hm := List.mem_filter.mp he
      simp only [Bool.and_eq_true, decide_eq_true_eq] at hm
      exact ⟨hm.2.1, hm.2.2, hm.1⟩

/-- Witness for C9: the partition facts at a concrete 3-node graph and a
concrete permutation. -/
theorem claim9_partition_loader_witness :
    List.Perm ceSmallPerm (List.range ceSmallGraph.numNodes) ∧
    ((chunks 64 ceSmallPerm).length = 64 ∧
      (chunks 64 ceSmallPerm).flatten = ceSmallPerm ∧
      List.Perm (chunks 64 ceSmallPerm).flatten
        (List.range ceSmallGraph.numNodes) ∧
      (∀ pt ∈ loaderParts ceSmallGraph 64 ceSmallPerm, ∀ e ∈ pt.edgesIn,
        e.1 ∈ pt.nodes ∧ e.2 ∈ pt.nodes ∧ e ∈ ceSmallGraph.edges)) :=
  ⟨by decide,
    claim9_partition_loader.2 ceSmallGraph ceSmallPerm (by decide)⟩

/-- Claim C10: every run, whatever the command-line arguments, constructs the
model with `alpha = 0.5`, `theta = 0.7`, `dropout = 0.5` and calls `train`
(when it trains at all) with `epochs = 1000` and `patience = 20`; the
command-line surface `CliArgs` forwards exactly the augmentation flag,
neighbor bound, hidden width and convolution-block count, and nothing else,
into `node_classification`. -/
theorem claim10_fixed_hyperparameters (env : Env) (rng : RunRng)
    (args : CliArgs) :
    let o := mainEntry env rng args
    o.modelCfg.alpha = 1/2 ∧
    o.modelCfg.theta = 7/10 ∧
    o.modelCfg.dropout = 1/2 ∧
    (o.trainCall.map TrainParams.epochs
      = if o.trainCalled then some 1000 else none) ∧
    (o.trainCall.map TrainParams.patience
      = if o.trainCalled then some 20 else none) ∧
    mainEntry env rng args
      = nodeClassification env (env.cwd ++ "/dataset") args.neigh args.aug
          args.hid args.n_convs rng := by
  refine ⟨rfl, rfl, rfl, ?_, ?_, rfl⟩ <;>
    · show (if env.fsExists ((env.getPaths NAME_DIR args.neigh args.hid
          args.n_convs args.aug).model_path ++ "/"
          ++ modelName args.neigh args.hid args.n_convs args.aug ++ ".h5")
          then (none : Option TrainParams) else some _).map _
        = if (!env.fsExists ((env.getPaths NAME_DIR args.neigh args.hid
            args.n_convs args.aug).model_path ++ "/"
            ++ modelName args.neigh args.hid args.n_convs args.aug ++ ".h5"))
          then _ else none
      cases env.fsExists ((env.getPaths NAME_DIR args.neigh args.hid
        args.n_convs args.aug).model_path ++ "/"
        ++ modelName args.neigh args.hid args.n_convs args.aug ++ ".h5") <;>
        rfl

/-- Claim C3: both loss criteria are balanced (inverse-frequency) class
weights of their own split's label vector, fixed before `train` is invoked
(the `train` call receives exactly these weight functions); and for any label
vector, a class with strictly fewer occurrences gets a strictly larger
weight. -/
theorem claim3_balanced_loss_weights :
    (∀ (env : Env) (dp : String) (n : Int) (a : Bool) (h c : Int)
        (rng : RunRng),
      let o := nodeClassification env dp n a h c rng
      o.criterionWeights = (fun cl => balancedWeight o.train_dataset.y cl) ∧
      o.criterionValWeights = (fun cl => balancedWeight o.val_dataset.y cl) ∧
      (o.trainCall.map TrainParams.trainWeights
        = if o.trainCalled then some o.criterionWeights else none) ∧
      (o.trainCall.map TrainParams.valWeights
        = if o.trainCalled then some o.criterionValWeights else none)) ∧
    (∀ (y : List Nat) (cmin cmaj : Nat), cmin ∈ y → cmaj ∈ y →
      countLabel y cmin < countLabel y cmaj →
      balancedWeight y cmaj < balancedWeight y cmin) := by
  constructor
  · intro env dp n a h c rng
    refine ⟨rfl, rfl, ?_, ?_⟩ <;>
      · show (if env.fsExists ((env.getPaths NAME_DIR n h c a).model_path
            ++ "/" ++ modelName n h c a ++ ".h5")
            then (none : Option TrainParams) else some _).map _
          = if (!env.fsExists ((env.getPaths NAME_DIR n h c a).model_path
              ++ "/" ++ modelName n h c a ++ ".h5")) then _ else none
        cases env.fsExists ((env.getPaths NAME_DIR n h c a).model_path
          ++ "/" ++ modelName n h c a ++ ".h5") <;> rfl
  · intro y cmin cmaj hmin hmaj hcount
    have h1 : 0 < countLabel y cmin := List.count_pos_iff.mpr hmin
    have hlen : 0 < y.length := by
      cases y with
      | nil => simp at hmin
      | cons _ _ => simp
    have hk : 0 < numClassesIn y := by
      have : cmin ∈ y.dedup := List.mem_dedup.mpr hmin
      unfold numClassesIn
      cases hd : y.dedup with
      | nil => rw [hd] at this; simp at this
      | cons _ _ => simp
    unfold balancedWeight
    apply div_lt_div_of_pos_left
    · exact_mod_cast hlen
    · have : (0 : ℚ) < (numClassesIn y : ℚ) := by exact_mod_cast hk
      have h1' : (0 : ℚ) < (countLabel y cmin : ℚ) := by exact_mod_cast h1
      positivity
    · apply mul_lt_mul_of_pos_left
      · exact_mod_cast hcount
      · exact_mod_cast hk

theorem trainLoop_spec (p : Nat) (f : Nat → ℚ) (hp : 0 < p) :
    ∀ (rem : Nat) (s : ESState) (e : Nat), esInv p f e s →
      e ≤ (trainLoop p f rem s e).2 ∧
      (trainLoop p f rem s e).2 ≤ e + rem ∧
      (∃ i, i < (trainLoop p f rem s e).2 ∧
        (trainLoop p f rem s e).1.ckptEpoch = some i ∧
        (∀ j, j < (trainLoop p f rem s e).2 → f i ≤ f j) ∧
        (∀ j, j < i → f i < f j) ∧
        (trainLoop p f rem s e).1.stall = (trainLoop p f rem s e).2 - 1 - i) ∧
      ((trainLoop p f rem s e).2 < e + rem →
        (trainLoop p f rem s e).1.stall = p) := by
  intro rem
  induction rem with
  | zero =>
    intro s e hinv
    obtain ⟨he, hstall, i, hi, hckpt, hbest, hmin, hfirst, hs⟩ := hinv
    simp only [trainLoop]
    exact ⟨le_refl _, by omega, ⟨i, hi, hckpt, hmin, hfirst, hs⟩,
      fun hlt => absurd hlt (by omega)⟩
  | succ rem ih =>
    intro s e hinv
    obtain ⟨he, hstall, i, hi, hckpt, hbest, hmin, hfirst, hstalleq⟩ := hinv
    by_cases himp : f e < f i
    · -- improving epoch: best/checkpoint move to epoch e, stall resets
      have hstep : esStep p s e (f e)
          = ({ best := some (f e), stall := 0, ckptEpoch := some e }, false) := by
        simp [esStep, improves, hbest, himp]
      have hloop : trainLoop p f (rem + 1) s e
          = trainLoop p f rem
              { best := some (f e), stall := 0, ckptEpoch := some e } (e + 1) := by
        simp only [trainLoop, hstep]
      have hinv' : esInv p f (e + 1)
          { best := some (f e), stall := 0, ckptEpoch := some e } := by
        refine ⟨by omega, hp, e, by omega, rfl, rfl, ?_, ?_,
          by show (0 : Nat) = e + 1 - 1 - e; omega⟩
        · intro j hj
          rcases Nat.lt_succ_iff_lt_or_eq.mp hj with hj' | rfl
          · exact le_of_lt (lt_of_lt_of_le himp (hmin j hj'))
          · exact le_refl _
        · intro j hj
          exact lt_of_lt_of_le himp (hmin j hj)
      obtain ⟨a1, a2, a3, a4⟩ := ih _ _ hinv'
      rw [hloop]
      exact ⟨by omega, by omega, a3, fun hlt => a4 (by omega)⟩
    · have hne : improves s.best (f e) = false := by
        simp [improves, hbest, himp]
      have hle : f i ≤ f e := le_of_not_lt himp
      by_cases hstop : p ≤ s.stall + 1
      · -- patience exhausted: the loop stops after this epoch
        have hstep : esStep p s e (f e)
            = ({ s with stall := s.stall + 1 }, true) := by
          simp [esStep, hne, hstop]
        have hloop : trainLoop p f (rem + 1) s e
            = ({ s with stall := s.stall + 1 }, e + 1) := by
          simp only [trainLoop, hstep]
        rw [hloop]
        refine ⟨by omega, by omega, ⟨i, by omega, hckpt, ?_, hfirst, ?_⟩,
          fun _ => by show s.stall + 1 = p; omega⟩
        · intro j hj
          rcases Nat.lt_succ_iff_lt_or_eq.mp hj with hj' | rfl
          · exact hmin j hj'
          · exact hle
        · show s.stall + 1 = e + 1 - 1 - i
          omega
      · -- stalled but patience not yet exhausted
        have hstep : esStep p s e (f e)
            = ({ s with stall := s.stall + 1 }, false) := by
          simp [esStep, hne, hstop]
        have hloop : trainLoop p f (rem + 1) s e
            = trainLoop p f rem { s with stall := s.stall + 1 } (e + 1) := by
          simp only [trainLoop, hstep]
        have hinv' : esInv p f (e + 1) { s with stall := s.stall + 1 } := by
          refine ⟨by omega, by show s.stall + 1 < p; omega, i, by omega,
            hckpt, hbest, ?_, hfirst, ?_⟩
          · intro j hj
            rcases Nat.lt_succ_iff_lt_or_eq.mp hj with hj' | rfl
            · exact hmin j hj'
            · exact hle
          · show s.stall + 1 = e + 1 - 1 - i
            omega
        obtain ⟨a1, a2, a3, a4⟩ := ih _ _ hinv'
        rw [hloop]
        exact ⟨by omega, by omega, a3, fun hlt => a4 (by omega)⟩

/-- Claim C7: the early-stopping machine starts in the improving state with
best loss `+∞`; the program invokes `train` with `patience = 20` and
`epochs = 1000`; and for every loss sequence the loop executes at most
`max_epochs` epochs, a stop before exhaustion happens exactly when the stall
counter reaches `patience` (i.e. after exactly `patience` consecutive
non-improving epochs), and the persisted checkpoint holds the parameters of
the (first) epoch attaining the best observed validation loss — not the last
epoch. -/
theorem claim7_early_stopping (p E : Nat) (f : Nat → ℚ)
    (hp : 0 < p) (hE : 0 < E) :
    (runTrainLoop p f E = trainLoop p f E esInit 0 ∧
      esInit.best = none ∧ esInit.stall = 0 ∧ esInit.ckptEpoch = none) ∧
    (∀ (env : Env) (dp : String) (n : Int) (a : Bool) (h c : Int)
        (rng : RunRng),
      (nodeClassification env dp n a h c rng).trainCall.map TrainParams.patience
        = (if (nodeClassification env dp n a h c rng).trainCalled
            then some 20 else none) ∧
      (nodeClassification env dp n a h c rng).trainCall.map TrainParams.epochs
        = (if (nodeClassification env dp n a h c rng).trainCalled
            then some 1000 else none)) ∧
    ((runTrainLoop p f E).2 ≤ E ∧
      ((runTrainLoop p f E).2 < E → (runTrainLoop p f E).1.stall = p) ∧
      (∃ i, i < (runTrainLoop p f E).2 ∧
        (runTrainLoop p f E).1.ckptEpoch = some i ∧
        (∀ j, j < (runTrainLoop p f E).2 → f i ≤ f j) ∧
        (∀ j, j < i → f i < f j) ∧
        (runTrainLoop p f E).1.stall = (runTrainLoop p f E).2 - 1 - i)) := by
  refine ⟨⟨rfl, rfl, rfl, rfl⟩, ?_, ?_⟩
  · intro env dp n a h c rng
    constructor <;>
      · show (if env.fsExists ((env.getPaths NAME_DIR n h c a).model_path
            ++ "/" ++ modelName n h c a ++ ".h5")
            then (none : Option TrainParams) else some _).map _
          = if (!env.fsExists ((env.getPaths NAME_DIR n h c a).model_path
              ++ "/" ++ modelName n h c a ++ ".h5")) then _ else none
        cases env.fsExists ((env.getPaths NAME_DIR n h c a).model_path
          ++ "/" ++ modelName n h c a ++ ".h5") <;> rfl
  · obtain ⟨E', rfl⟩ : ∃ E', E = E' + 1 := ⟨E - 1, by omega⟩
    have hstep : esStep p esInit 0 (f 0)
        = ({ best := some (f 0), stall := 0, ckptEpoch := some 0 }, false) := by
      simp [esStep, improves, esInit]
    have hloop : runTrainLoop p f (E' + 1)
        = trainLoop p f E'
            { best := some (f 0), stall := 0, ckptEpoch := some 0 } 1 := by
      simp only [runTrainLoop, trainLoop, hstep]
    have hinv1 : esInv p f 1
        { best := some (f 0), stall := 0, ckptEpoch := some 0 } := by
      refine ⟨by omega, hp, 0, by omega, rfl, rfl, ?_, ?_,
        by show (0 : Nat) = 1 - 1 - 0; rfl⟩
      · intro j hj
        have : j = 0 := by omega
        subst this
        exact le_refl _
      · intro j hj
        exact absurd hj (by omega)
    obtain ⟨a1, a2, a3, a4⟩ := trainLoop_spec p f hp E' _ 1 hinv1
    rw [hloop]
    exact ⟨by omega, fun hlt => a4 (by omega), a3⟩

/-- Witness for C7: the loop facts at `patience = 2`, `max_epochs = 5` and the
concrete loss sequence `[10, 9, 12, 13, 14]` (improvements at epochs 0 and 1,
then stalls only): the run stops after epoch 4 with the checkpoint at
epoch 1. -/
theorem claim7_early_stopping_witness :
    (0 < 2) ∧ (0 < 5) ∧
    ((runTrainLoop 2 ceLossF 5).2 ≤ 5 ∧
      ((runTrainLoop 2 ceLossF 5).2 < 5 →
        (runTrainLoop 2 ceLossF 5).1.stall = 2) ∧
      (∃ i, i < (runTrainLoop 2 ceLossF 5).2 ∧
        (runTrainLoop 2 ceLossF 5).1.ckptEpoch = some i ∧
        (∀ j, j < (runTrainLoop 2 ceLossF 5).2 → ceLossF i ≤ ceLossF j) ∧
        (∀ j, j < i → ceLossF i < ceLossF j) ∧
        (runTrainLoop 2 ceLossF 5).1.stall
          = (runTrainLoop 2 ceLossF 5).2 - 1 - i)) :=
  ⟨by decide, by decide,
    (claim7_early_stopping 2 5 ceLossF (by decide) (by decide)).2.2⟩

/-- Claim C5: the checkpoint base name is a deterministic, injective encoding
of the four external parameters — two runs build equal `model_name` strings
iff their `(neighbor bound, hidden width, convolution-block count,
augmentation flag)` tuples are equal. -/
theorem claim5_checkpoint_identity (n h c : Int) (a : Bool)
    (n' h' c' : Int) (a' : Bool) :
    modelName n h c a = modelName n' h' c' a' ↔
      (n = n' ∧ h = h' ∧ c = c' ∧ a = a') := by
  constructor
  · intro heq
    have h0 : modelNameChars n h c a = modelNameChars n' h' c' a' :=
      congrArg String.data heq
    unfold modelNameChars at h0
    simp only [List.append_assoc] at h0
    have h1 := List.append_cancel_left h0
    obtain ⟨hA, hS⟩ := append_split _ _ _ _
      (intRepr_no_underscore n) (intRepr_no_underscore n')
      (fun ch hch => underscore_head _ _ (by decide) hch)
      (fun ch hch => underscore_head _ _ (by decide) hch) h1
    have h2 := List.append_cancel_left hS
    obtain ⟨hB, hT⟩ := append_split _ _ _ _
      (intRepr_no_underscore h) (intRepr_no_underscore h')
      (fun ch hch => underscore_head _ _ (by decide) hch)
      (fun ch hch => underscore_head _ _ (by decide) hch) h2
    have h3 := List.append_cancel_left hT
    obtain ⟨hC, hG⟩ := append_split _ _ _ _
      (intRepr_no_underscore c) (intRepr_no_underscore c')
      (fun ch hch => aug_head a hch)
      (fun ch hch => aug_head a' hch) h3
    exact ⟨intRepr_inj hA, intRepr_inj hB, intRepr_inj hC, aug_inj hG⟩
  · rintro ⟨rfl, rfl, rfl, rfl⟩
    rfl

/-- Claim C8 (amended): a second run with identical hyperparameters against a
filesystem holding the first run's checkpoint performs no training and only
loads the checkpoint; and its evaluation metrics equal the first run's
provided the checkpoint load restores the first run's predict-time model and
the shuffled test loader draws the same node permutation in both runs. -/
theorem claim8_resume_metrics (env₁ env₂ : Env) (dp : String) (n : Int)
    (a : Bool) (h c : Int) (rng₁ rng₂ : RunRng)
    (hbuild : env₂.build = env₁.build)
    (hpaths : env₂.getPaths = env₁.getPaths)
    (hfs : env₂.fsExists ((env₁.getPaths NAME_DIR n h c a).model_path ++ "/"
      ++ modelName n h c a ++ ".h5") = true)
    (hload : env₂.loadModel ((env₁.getPaths NAME_DIR n h c a).model_path
        ++ "/" ++ modelName n h c a ++ ".h5")
      = (nodeClassification env₁ dp n a h c rng₁).finalModel)
    (hrng : rng₂.testPerm = rng₁.testPerm) :
    (nodeClassification env₂ dp n a h c rng₂).trainCalled = false ∧
    (nodeClassification env₂ dp n a h c rng₂).loadedCheckpoint = true ∧
    (nodeClassification env₂ dp n a h c rng₂).y_true
      = (nodeClassification env₁ dp n a h c rng₁).y_true ∧
    (nodeClassification env₂ dp n a h c rng₂).y_pred
      = (nodeClassification env₁ dp n a h c rng₁).y_pred ∧
    accuracy (nodeClassification env₂ dp n a h c rng₂).y_true
        (nodeClassification env₂ dp n a h c rng₂).y_pred
      = accuracy (nodeClassification env₁ dp n a h c rng₁).y_true
        (nodeClassification env₁ dp n a h c rng₁).y_pred ∧
    balancedAccuracy (nodeClassification env₂ dp n a h c rng₂).y_true
        (nodeClassification env₂ dp n a h c rng₂).y_pred
      = balancedAccuracy (nodeClassification env₁ dp n a h c rng₁).y_true
        (nodeClassification env₁ dp n a h c rng₁).y_pred ∧
    (∀ t u, confusionEntry (nodeClassification env₂ dp n a h c rng₂).y_true
        (nodeClassification env₂ dp n a h c rng₂).y_pred t u
      = confusionEntry (nodeClassification env₁ dp n a h c rng₁).y_true
        (nodeClassification env₁ dp n a h c rng₁).y_pred t u) ∧
    recallVec (nodeClassification env₂ dp n a h c rng₂).y_true
        (nodeClassification env₂ dp n a h c rng₂).y_pred
      = recallVec (nodeClassification env₁ dp n a h c rng₁).y_true
        (nodeClassification env₁ dp n a h c rng₁).y_pred := by
  have hp2 : env₂.getPaths NAME_DIR n h c a = env₁.getPaths NAME_DIR n h c a := by
    rw [hpaths]
  have hcond : env₂.fsExists ((env₂.getPaths NAME_DIR n h c a).model_path
      ++ "/" ++ modelName n h c a ++ ".h5") = true := by
    rw [hp2]; exact hfs
  have hTC : (nodeClassification env₂ dp n a h c rng₂).trainCalled = false := by
    show (!env₂.fsExists ((env₂.getPaths NAME_DIR n h c a).model_path
      ++ "/" ++ modelName n h c a ++ ".h5")) = false
    rw [hcond]
    rfl
  have hLC : (nodeClassification env₂ dp n a h c rng₂).loadedCheckpoint
      = true := hcond
  have hFM : (nodeClassification env₂ dp n a h c rng₂).finalModel
      = (nodeClassification env₁ dp n a h c rng₁).finalModel := by
    show (if env₂.fsExists ((env₂.getPaths NAME_DIR n h c a).model_path
          ++ "/" ++ modelName n h c a ++ ".h5")
        then env₂.loadModel ((env₂.getPaths NAME_DIR n h c a).model_path
          ++ "/" ++ modelName n h c a ++ ".h5")
        else _)
      = (nodeClassification env₁ dp n a h c rng₁).finalModel
    rw [hp2, if_pos hfs]
    exact hload
  have hTD : (nodeClassification env₂ dp n a h c rng₂).test_dataset
      = (nodeClassification env₁ dp n a h c rng₁).test_dataset := by
    show env₂.build _ = env₁.build _
    rw [hbuild]
  have hYT : (nodeClassification env₂ dp n a h c rng₂).y_true
      = (nodeClassification env₁ dp n a h c rng₁).y_true := by
    show (predictRun (nodeClassification env₂ dp n a h c rng₂).finalModel
        (nodeClassification env₂ dp n a h c rng₂).test_dataset 64
        rng₂.testPerm).1
      = (predictRun (nodeClassification env₁ dp n a h c rng₁).finalModel
        (nodeClassification env₁ dp n a h c rng₁).test_dataset 64
        rng₁.testPerm).1
    rw [hFM, hTD, hrng]
  have hYP : (nodeClassification env₂ dp n a h c rng₂).y_pred
      = (nodeClassification env₁ dp n a h c rng₁).y_pred := by
    show (predictRun (nodeClassification env₂ dp n a h c rng₂).finalModel
        (nodeClassification env₂ dp n a h c rng₂).test_dataset 64
        rng₂.testPerm).2
      = (predictRun (nodeClassification env₁ dp n a h c rng₁).finalModel
        (nodeClassification env₁ dp n a h c rng₁).test_dataset 64
        rng₁.testPerm).2
    rw [hFM, hTD, hrng]
  exact ⟨hTC, hLC, hYT, hYP, by rw [hYT, hYP], by rw [hYT, hYP],
    fun t u => by rw [hYT, hYP], by rw [hYT, hYP]⟩

/-- Witness for C8 (amended): the amended theorem applied to the concrete
environments `ceEnv1`/`ceEnv2` with the same test permutation in both runs. -/
theorem claim8_resume_metrics_witness :
    (ceEnv2.build = ceEnv1.build) ∧
    (ceEnv2.getPaths = ceEnv1.getPaths) ∧
    (ceEnv2.fsExists ((ceEnv1.getPaths NAME_DIR 0 2048 16 true).model_path
      ++ "/" ++ modelName 0 2048 16 true ++ ".h5") = true) ∧
    (ceEnv2.loadModel ((ceEnv1.getPaths NAME_DIR 0 2048 16 true).model_path
      ++ "/" ++ modelName 0 2048 16 true ++ ".h5")
      = (nodeClassification ceEnv1 "dp" 0 true 2048 16 ⟨cePerm1⟩).finalModel) ∧
    ((nodeClassification ceEnv2 "dp" 0 true 2048 16 ⟨cePerm1⟩).trainCalled
        = false ∧
      (nodeClassification ceEnv2 "dp" 0 true 2048 16 ⟨cePerm1⟩).y_pred
        = (nodeClassification ceEnv1 "dp" 0 true 2048 16 ⟨cePerm1⟩).y_pred ∧
      accuracy (nodeClassification ceEnv2 "dp" 0 true 2048 16 ⟨cePerm1⟩).y_true
          (nodeClassification ceEnv2 "dp" 0 true 2048 16 ⟨cePerm1⟩).y_pred
        = accuracy
          (nodeClassification ceEnv1 "dp" 0 true 2048 16 ⟨cePerm1⟩).y_true
          (nodeClassification ceEnv1 "dp" 0 true 2048 16 ⟨cePerm1⟩).y_pred) := by
  have hmain := claim8_resume_metrics ceEnv1 ceEnv2 "dp" 0 true 2048 16
    ⟨cePerm1⟩ ⟨cePerm1⟩ rfl rfl rfl rfl rfl
  exact ⟨rfl, rfl, rfl, rfl, hmain.1, hmain.2.2.2.1, hmain.2.2.2.2.1⟩

/-- Counterexample to C8 as stated: two runs with identical hyperparameters,
where the first trains (no checkpoint yet) and the second finds and loads
exactly the first run's trained model, still produce different evaluation
metrics, because the shuffled test loader (no seed is ever fixed) draws a
different node partition: under `cePerm1` the only edge survives inside a
part and two nodes are predicted 1, under `cePerm2` it is cut and every
prediction is 0. -/
theorem claim8_counterexample :
    (nodeClassification ceEnv1 "dp" 0 true 2048 16 ⟨cePerm1⟩).trainCalled
      = true ∧
    (nodeClassification ceEnv2 "dp" 0 true 2048 16 ⟨cePerm2⟩).trainCalled
      = false ∧
    (nodeClassification ceEnv2 "dp" 0 true 2048 16 ⟨cePerm2⟩).loadedCheckpoint
      = true ∧
    ceEnv2.loadModel
        (nodeClassification ceEnv1 "dp" 0 true 2048 16 ⟨cePerm1⟩).model_trained_path
      = (nodeClassification ceEnv1 "dp" 0 true 2048 16 ⟨cePerm1⟩).finalModel ∧
    accuracy (nodeClassification ceEnv2 "dp" 0 true 2048 16 ⟨cePerm2⟩).y_true
        (nodeClassification ceEnv2 "dp" 0 true 2048 16 ⟨cePerm2⟩).y_pred
      ≠ accuracy (nodeClassification ceEnv1 "dp" 0 true 2048 16 ⟨cePerm1⟩).y_true
        (nodeClassification ceEnv1 "dp" 0 true 2048 16 ⟨cePerm1⟩).y_pred := by
  refine ⟨rfl, rfl, rfl, rfl, ?_⟩
  have e1t : (nodeClassification ceEnv1 "dp" 0 true 2048 16 ⟨cePerm1⟩).y_true.length
      = 65 := by decide
  have e1m : countMatches
      (nodeClassification ceEnv1 "dp" 0 true 2048 16 ⟨cePerm1⟩).y_true
      (nodeClassification ceEnv1 "dp" 0 true 2048 16 ⟨cePerm1⟩).y_pred = 2 := by
    decide
  have e2t : (nodeClassification ceEnv2 "dp" 0 true 2048 16 ⟨cePerm2⟩).y_true.length
      = 65 := by decide
  have e2m : countMatches
      (nodeClassification ceEnv2 "dp" 0 true 2048 16 ⟨cePerm2⟩).y_true
      (nodeClassification ceEnv2 "dp" 0 true 2048 16 ⟨cePerm2⟩).y_pred = 0 := by
    decide
  unfold accuracy
  rw [e1t, e1m, e2t, e2m]
  norm_num

/-- Witness for C3: the inverse-frequency inequality at the concrete label
vector `[0, 0, 0, 1]` — the minority class 1 gets a larger weight than the
majority class 0. -/
theorem claim3_balanced_loss_weights_witness :
    (1 ∈ ceLabels) ∧ (0 ∈ ceLabels) ∧
    countLabel ceLabels 1 < countLabel ceLabels 0 ∧
    balancedWeight ceLabels 0 < balancedWeight ceLabels 1 :=
  ⟨by decide, by decide, by decide,
    claim3_balanced_loss_weights.2 ceLabels 1 0 (by decide) (by decide)
      (by decide)⟩

end AnomalyGNN
